import Mathlib

/-!
Shallow embedding of src/server.js (a Freepik image-generation proxy).

The embedding covers the two components the specification describes:
the polling loop pollFreepikTask (server.js lines 33-73) and the
POST /api/freepik/generate request handler (lines 75-126).

JSON values are modelled by an inductive type with JavaScript
truthiness and property access; a missing property is the
distinguished value jundefined.  Network effects are modelled by passing
the provider's responses in as explicit arguments.  Console logging is
modelled only where it can change control flow: the template literals
on lines 59 and 120 call .substring on the extracted value when that
value is truthy, which throws a TypeError when the value is not a
string; those throws are observed by the surrounding try/catch blocks
and therefore affect behaviour.
-/

/-- A JavaScript/JSON value.  jundefined models the result of reading an
absent property (undefined). -/
inductive JValue where
  | jnull
  | jundefined
  | jbool (b : Bool)
  | jnum (n : Int)
  | jstr (s : String)
  | jarr (elems : List JValue)
  | jobj (fields : List (String × JValue))

/-- JavaScript truthiness of a value. -/
def JValue.truthy : JValue → Bool
  | .jnull => false
  | .jundefined => false
  | .jbool b => b
  | .jnum n => decide (n ≠ 0)
  | .jstr s => decide (s ≠ "")
  | .jarr _ => true
  | .jobj _ => true

/-- Property access `v[k]`, returning jundefined when absent.  This is the
behaviour of `v?.k`, and also of `v.k` whenever v is truthy (plain
access on null/undefined throws instead; the callers below only use
this on receivers that are known truthy or behind optional chains,
and model the throwing cases explicitly). -/
def JValue.get : JValue → String → JValue
  | .jobj fields, k => ((fields.find? (fun p => p.1 == k)).map Prod.snd).getD .jundefined
  | .jarr elems, k => if k == "length" then .jnum elems.length else .jundefined
  | .jstr s, k => if k == "length" then .jnum s.length else .jundefined
  | _, _ => .jundefined

/-- Index access `v[0]`. -/
def JValue.index0 : JValue → JValue
  | .jarr [] => .jundefined
  | .jarr (x :: _) => x
  | .jstr s => if s == "" then .jundefined else .jstr (String.mk (s.data.take 1))
  | .jobj fields => ((fields.find? (fun p => p.1 == "0")).map Prod.snd).getD .jundefined
  | _ => .jundefined

/-- JavaScript `a || b`: a if truthy, else b. -/
def jsOr (a b : JValue) : JValue := if a.truthy then a else b

/-- Strict string equality `v === s` for a string literal s. -/
def JValue.isStr : JValue → String → Bool
  | .jstr t, s => t == s
  | _, _ => false

/-- Whether the value is a string (JavaScript `typeof v === 'string'`). -/
def JValue.isStringB : JValue → Bool
  | .jstr _ => true
  | _ => false

/-- Whether `v ? v.substring(0, 100) : ...` throws a TypeError: v is
truthy but has no substring method (i.e. is not a string). -/
def logThrows (v : JValue) : Bool := v.truthy && !v.isStringB

/-- The provider submission URL, server.js line 31. -/
def FREEPIK_API_URL : String := "https://api.freepik.com/v1/ai/mystic"

/-- The ordered candidate status endpoints, server.js lines 34-38. -/
def endpointsFor (taskId : String) : List String :=
  [FREEPIK_API_URL ++ "/" ++ taskId,
   FREEPIK_API_URL ++ "?task_id=" ++ taskId,
   "https://api.freepik.com/v1/ai/tasks/" ++ taskId]

/-- Outcome of one `fetch` + `r.json()` during polling: either the
fetch itself rejects, or an HTTP response arrives with `r.ok` and,
when the body parses as JSON, the parsed value (none models a body on
which `r.json()` throws). -/
inductive PollFetch where
  | netError
  | resp (ok : Bool) (jsonBody : Option JValue)

/-- Whether a value is null or undefined — property access on such a
receiver throws a TypeError. -/
def isNullOrUndef : JValue → Bool
  | .jnull => true
  | .jundefined => true
  | _ => false

/-- The line 58 fallback chain applied to `image`:
`image.url || image.image_url || image.imageUrl || image.src ||
(typeof image === 'string' ? image : null)`. -/
def chainOf (image : JValue) : JValue :=
  jsOr (image.get "url") (jsOr (image.get "image_url")
    (jsOr (image.get "imageUrl") (jsOr (image.get "src")
      (if image.isStringB then image else .jnull))))

/-- Lines 57-60 applied to `image = generated[0]`: none when the code
throws — `image.url` on a null/undefined element, or the line 59
diagnostic template literal calling `.substring` on a truthy
non-string value. -/
def imageStep (image : JValue) : Option JValue :=
  if isNullOrUndef image then none
  else if logThrows (chainOf image) then none
  else some (chainOf image)

/-- Artifact extraction on a terminal success status, server.js lines
56-62, applied to d = data.data.  Returns none when the original code
throws (see imageStep). -/
def extractAsset (d : JValue) : Option JValue :=
  if (d.get "generated").truthy && ((d.get "generated").get "length").truthy then
    imageStep ((d.get "generated").index0)
  else
    some (jsOr (d.get "url") (jsOr (d.get "image_url") .jnull))

/-- What one candidate probe returns from pollFreepikTask, lines
44-66: some v exactly when line 60 or 62 executes a `return`.  Every
throw inside the try block — network error, JSON parse error, the
line 64 `throw new Error` on a FAILED/ERROR status, and the TypeError
cases inside extraction — is caught by the `catch (_) { /* try next */ }`
on line 66 and yields none (continue with the next candidate). -/
def candReturn : PollFetch → Option JValue
  | .netError => none
  | .resp ok jsonBody =>
    if ok then
      match jsonBody with
      | none => none
      | some data =>
        if data.truthy && (data.get "data").truthy then
          if ((data.get "data").get "status").isStr "COMPLETED"
              || ((data.get "data").get "status").isStr "SUCCESS" then
            extractAsset (data.get "data")
          else none
        else none
    else none

/-- Whether one candidate probe reaches line 53 (`if (!working)
working = url`): the response is ok, parses, and `data && data.data`
is truthy.  Note no status field is required. -/
def candPins : PollFetch → Bool
  | .netError => false
  | .resp ok jsonBody =>
    ok && (match jsonBody with
      | none => false
      | some data => data.truthy && (data.get "data").truthy)

/-- The inner `for (const url of candidates)` loop of lines 42-67:
threads the `working` slot through the candidate list and stops at the
first candidate whose probe returns. -/
def runCandidates (fetch : String → PollFetch) :
    Option String → List String → Option String × Option JValue
  | w, [] => (w, none)
  | w, url :: rest =>
    let w' := if candPins (fetch url) then some (w.getD url) else w
    match candReturn (fetch url) with
    | some v => (w', some v)
    | none => runCandidates fetch w' rest

/-- Line 41: the candidate list for a round is the pinned endpoint
alone when one is set, else the full ordered endpoint list. -/
def candsOf (working : Option String) (eps : List String) : List String :=
  match working with
  | some u => [u]
  | none => eps

/-- Outcome of pollFreepikTask: a returned value, or the line 72
`throw new Error('Freepik polling timeout')`. -/
inductive PollResult where
  | ok (v : JValue)
  | timeout

/-- The outer `for (let attempt = 0; ...)` loop of lines 40-70,
together with the number of rounds executed.  env gives the provider's
response per (attempt, url). -/
def pollAux (env : Nat → String → PollFetch) (eps : List String) :
    Nat → Nat → Option String → PollResult × Nat
  | 0, _, _ => (.timeout, 0)
  | remaining + 1, attempt, w =>
    match runCandidates (env attempt) w (candsOf w eps) with
    | (_, some v) => (.ok v, 1)
    | (w', none) =>
      let next := pollAux env eps remaining (attempt + 1) w'
      (next.1, next.2 + 1)

/-- pollFreepikTask, lines 33-73 (the sleep between rounds has no
observable effect in the embedding). -/
def pollFreepikTask (env : Nat → String → PollFetch) (taskId : String)
    (maxAttempts : Nat) : PollResult × Nat :=
  pollAux env (endpointsFor taskId) maxAttempts 0 none

/-- The value of the `working` slot (line 39/53) at the start of round
n, as a function of the environment: at round 0 it is unset, and each
round updates it by running the round's candidate list. -/
def pollState (env : Nat → String → PollFetch) (eps : List String) : Nat → Option String
  | 0 => none
  | n + 1 =>
    (runCandidates (env n) (pollState env eps n)
      (candsOf (pollState env eps n) eps)).1

/-- The prompt value read by the line 80 destructuring from
`req.body || {}`. -/
def promptOf (reqBody : JValue) : JValue :=
  (jsOr reqBody (JValue.jobj [])).get "prompt"

/-- A prompt that passes both the line 81 diagnostic log (must not be
a truthy non-string) and the line 82 `if (!prompt)` check. -/
def validPrompt (reqBody : JValue) : Bool :=
  (promptOf reqBody).truthy && (promptOf reqBody).isStringB

/-- An error response body `{error: msg}`. -/
def errBody (msg : String) : JValue := JValue.jobj [("error", JValue.jstr msg)]

/-- The remediation message of server.js line 105. -/
def quotaMsg : String :=
  "Freepik API quota exceeded (free trial limit reached). Upgrade your plan or use a new API key."

/-- Line 114: `result?.data?.task_id && result?.data?.status === 'CREATED'`. -/
def isTaskHandle (result : JValue) : Bool :=
  ((result.get "data").get "task_id").truthy
    && ((result.get "data").get "status").isStr "CREATED"

/-- Line 119: `result?.data?.url || result?.data?.image_url || result?.url || null`. -/
def directVal (result : JValue) : JValue :=
  jsOr ((result.get "data").get "url")
    (jsOr ((result.get "data").get "image_url")
      (jsOr (result.get "url") JValue.jnull))

/-- The response the handler sends plus two observability fields: how
many submission POSTs were issued to the provider (0 or 1) and whether
pollFreepikTask was invoked. -/
structure GenOutcome where
  httpStatus : Nat
  respBody : JValue
  submitCalls : Nat
  pollInvoked : Bool

/-- Outcome of the submission `fetch` on lines 87-96: the fetch
rejects (network failure or the 30 s abort), or a response arrives
with an HTTP status, a text body (read on line 100 for non-ok
responses) and, when `resp.json()` succeeds, the parsed JSON body. -/
inductive SubmitFetch where
  | netError (msg : String)
  | resp (status : Nat) (text : String) (jsonBody : Option JValue)

/-- The POST /api/freepik/generate handler, server.js lines 75-126.
The provider's behaviour is passed in: submit is what the line 87
fetch would produce, and pollFn is what pollFreepikTask would produce
for a given task_id value (in the source, pollFn is pollFreepikTask
applied to an environment of poll responses).  Exceptions reaching
line 122 become 500 responses carrying e.message; the exact TypeError
message texts are engine dependent and are modelled by fixed strings. -/
def generateHandler (apiKey : Option String) (reqBody : JValue)
    (submit : SubmitFetch) (pollFn : JValue → PollResult) : GenOutcome :=
  match apiKey with
  | none => ⟨400, errBody "Freepik API key missing on server", 0, false⟩
  | some _ =>
    if logThrows (promptOf reqBody) then
      ⟨500, errBody "prompt.substring is not a function", 0, false⟩
    else if (promptOf reqBody).truthy then
      match submit with
      | .netError msg =>
        ⟨500, errBody (if msg == "" then "Freepik proxy failure" else msg), 1, false⟩
      | .resp status text jsonBody =>
        if 200 ≤ status ∧ status ≤ 299 then
          match jsonBody with
          | none => ⟨500, errBody "Unexpected end of JSON input", 1, false⟩
          | some result =>
            if isTaskHandle result then
              match pollFn ((result.get "data").get "task_id") with
              | .ok v => ⟨200, .jobj [("url", v)], 1, true⟩
              | .timeout => ⟨500, errBody "Freepik polling timeout", 1, true⟩
            else
              if logThrows (directVal result) then
                ⟨500, errBody "direct.substring is not a function", 1, false⟩
              else
                ⟨200, .jobj [("url", directVal result)], 1, false⟩
        else
          if status = 429 then
            ⟨429, .jobj [("error", .jstr quotaMsg),
                         ("quota_exceeded", .jbool true)], 1, false⟩
          else
            ⟨502, errBody ("Freepik error " ++ toString status ++ ": " ++ text), 1, false⟩
    else
      ⟨400, errBody "prompt required", 0, false⟩

/-- Extraction preference order as the specification words it: take
the first element of the generated-assets list and use the first
truthy field among url, image_url, imageUrl, src, then the element
itself when it is a plain string; when there is no such list, use a
top-level url then image_url field, else null.  This definition
follows the specification's words and is compared against
extractAsset, which follows the source. -/
def specExtract (d : JValue) : JValue :=
  match d.get "generated" with
  | .jarr (e :: _) =>
    if (e.get "url").truthy then e.get "url"
    else if (e.get "image_url").truthy then e.get "image_url"
    else if (e.get "imageUrl").truthy then e.get "imageUrl"
    else if (e.get "src").truthy then e.get "src"
    else if e.isStringB then e
    else .jnull
  | _ =>
    if (d.get "url").truthy then d.get "url"
    else if (d.get "image_url").truthy then d.get "image_url"
    else .jnull

/-- The generated field is either an honest array or not truthy (the
shapes the specification's wording covers; the source additionally
enters its list branch on truthy non-array values with a truthy
length property, such as nonempty strings). -/
def genWellShaped (d : JValue) : Bool :=
  match d.get "generated" with
  | .jarr _ => true
  | g => !g.truthy

theorem candReturn_isSome_pins (f : PollFetch) :
    (candReturn f).isSome = true → candPins f = true := by
  cases f with
  | netError => intro h; simp [candReturn] at h
  | resp ok jb =>
    cases ok with
    | false => intro h; simp [candReturn] at h
    | true =>
      cases jb with
      | none => intro h; simp [candReturn] at h
      | some data =>
        intro h
        simp only [candReturn, if_true] at h
        simp only [candPins, Bool.true_and]
        by_cases hc : (data.truthy && (data.get "data").truthy) = true
        · exact hc
        · rw [if_neg hc] at h
          simp at h

theorem runCandidates_mono (fetch : String → PollFetch) (u : String)
    (cands : List String) : (runCandidates fetch (some u) cands).1 = some u := by
  induction cands with
  | nil => rfl
  | cons url rest ih =>
    cases hcr : candReturn (fetch url) with
    | none => simp [runCandidates, hcr, ih]
    | some v => simp [runCandidates, hcr]

theorem runCandidates_none (fetch : String → PollFetch)
    (hf : ∀ url, candReturn (fetch url) = none) (w : Option String)
    (cands : List String) : ∃ w', runCandidates fetch w cands = (w', none) := by
  induction cands generalizing w with
  | nil => exact ⟨w, rfl⟩
  | cons url rest ih =>
    obtain ⟨w', h⟩ := ih (if candPins (fetch url) then some (w.getD url) else w)
    exact ⟨w', by simp only [runCandidates, hf url]; exact h⟩

theorem pollAux_timeout (env : Nat → String → PollFetch) (eps : List String)
    (henv : ∀ n url, candReturn (env n url) = none) :
    ∀ m n w, pollAux env eps m n w = (.timeout, m) := by
  intro m
  induction m with
  | zero => intro n w; rfl
  | succ k ih =>
    intro n w
    obtain ⟨w', h⟩ := runCandidates_none (env n) (henv n) w (candsOf w eps)
    simp [pollAux, h, ih]

theorem runCandidates_pins_isSome (fetch : String → PollFetch)
    (cands : List String) (hex : ∃ url ∈ cands, candPins (fetch url) = true) :
    (runCandidates fetch none cands).1.isSome = true := by
  induction cands with
  | nil => obtain ⟨url, h, _⟩ := hex; simp at h
  | cons url rest ih =>
    obtain ⟨u, hu, hp⟩ := hex
    cases hpin : candPins (fetch url) with
    | true =>
      cases hcr : candReturn (fetch url) with
      | some v => simp [runCandidates, hcr, hpin]
      | none => simp [runCandidates, hcr, hpin, runCandidates_mono]
    | false =>
      have hcr : candReturn (fetch url) = none := by
        cases hcr : candReturn (fetch url) with
        | none => rfl
        | some v =>
          have hps := candReturn_isSome_pins (fetch url) (by rw [hcr]; rfl)
          rw [hpin] at hps
          exact absurd hps (by simp)
      have hu' : u ∈ rest := by
        rcases List.mem_cons.mp hu with h | h
        · rw [h] at hp; rw [hpin] at hp; exact absurd hp (by simp)
        · exact h
      simp only [runCandidates, hcr, hpin, if_false]
      exact ih ⟨u, hu', hp⟩

/-- C1: the specification says that a polled FAILED or ERROR status
raises ProviderTaskFailedError and terminates the session at that
round.  In the source the line 64 `throw new Error('Task failed: ...')`
sits inside the per-candidate try block whose line 66 `catch (_)`
swallows every exception, so the failure signal is discarded, polling
continues, and the session ends with the generic polling-timeout error
after all maxAttempts rounds.  This theorem evaluates the code on an
environment in which every probe answers HTTP 200 with body
data.status = FAILED: the poller runs all 60 default rounds and raises
the timeout error instead of failing at round 0. -/
theorem c1_failed_status_swallowed :
    pollFreepikTask
      (fun _ _ => PollFetch.resp true
        (some (JValue.jobj [("data", JValue.jobj [("status", JValue.jstr "FAILED")])])))
      "T1" 60 = (PollResult.timeout, 60) := rfl

/-- C3: if every attempt across maxAttempts yields only non-terminal
statuses (each probe answers HTTP 200 with a well-formed body whose
status is IN_PROGRESS), the poller raises the polling-timeout error
after exactly maxAttempts rounds, with no earlier termination and no
partial result: for every bound m the session runs all m rounds and
ends in PollResult.timeout. -/
theorem c3_inprogress_timeout (env : Nat → String → PollFetch) (taskId : String)
    (H : ∀ n url, ∃ d : JValue, env n url = PollFetch.resp true (some d) ∧
      d.truthy = true ∧ (d.get "data").truthy = true ∧
      (d.get "data").get "status" = JValue.jstr "IN_PROGRESS") :
    ∀ maxAttempts, pollFreepikTask env taskId maxAttempts =
      (PollResult.timeout, maxAttempts) := by
  have henv : ∀ n url, candReturn (env n url) = none := by
    intro n url
    obtain ⟨d, he, ht, hd, hs⟩ := H n url
    rw [he]
    have h1 : ((d.get "data").get "status").isStr "COMPLETED" = false := by
      rw [hs]; rfl
    have h2 : ((d.get "data").get "status").isStr "SUCCESS" = false := by
      rw [hs]; rfl
    simp [candReturn, ht, hd, h1, h2]
  intro m
  exact pollAux_timeout env (endpointsFor taskId) henv m 0 none

/-- A provider that always answers HTTP 200 with body
data.status = IN_PROGRESS. -/
def envInProgress : Nat → String → PollFetch := fun _ _ =>
  PollFetch.resp true
    (some (JValue.jobj [("data", JValue.jobj [("status", JValue.jstr "IN_PROGRESS")])]))

theorem c3_inprogress_timeout_witness :
    pollFreepikTask envInProgress "T1" 60 = (PollResult.timeout, 60) :=
  c3_inprogress_timeout envInProgress "T1"
    (fun _ _ => ⟨JValue.jobj [("data", JValue.jobj [("status", JValue.jstr "IN_PROGRESS")])],
      rfl, rfl, rfl, rfl⟩) 60

/-- C2: pinning invariant of a polling session.  First conjunct: once
the working slot holds a candidate w at the start of some round, it
holds w at the start of every later round and the candidate list of
every later round (line 41) is exactly the singleton w — no other
candidate is probed on any subsequent attempt.  Second conjunct: while
no candidate has succeeded (working unset), the round's candidate list
is the full ordered endpoint list.  Third conjunct: as soon as some
candidate of a round yields a well-formed status payload (`data &&
data.data` truthy, line 50), the working slot is set from that round
on. -/
theorem c2_pinning_invariant (env : Nat → String → PollFetch) (eps : List String) :
    (∀ n w, pollState env eps n = some w →
      ∀ k, pollState env eps (n + k) = some w ∧
        candsOf (pollState env eps (n + k)) eps = [w]) ∧
    (∀ n, pollState env eps n = none → candsOf (pollState env eps n) eps = eps) ∧
    (∀ n, pollState env eps n = none →
      (∃ url ∈ candsOf (pollState env eps n) eps, candPins (env n url) = true) →
      (pollState env eps (n + 1)).isSome = true) := by
  have persist : ∀ n w, pollState env eps n = some w → ∀ k,
      pollState env eps (n + k) = some w := by
    intro n w h k
    induction k with
    | zero => exact h
    | succ j ih =>
      show pollState env eps (n + j + 1) = some w
      simp only [pollState]
      rw [ih]
      exact runCandidates_mono (env (n + j)) w (candsOf (some w) eps)
  refine ⟨?_, ?_, ?_⟩
  · intro n w h k
    refine ⟨persist n w h k, ?_⟩
    rw [persist n w h k]
    rfl
  · intro n h
    rw [h]
    rfl
  · intro n h hex
    have hstep : pollState env eps (n + 1) =
        (runCandidates (env n) (pollState env eps n)
          (candsOf (pollState env eps n) eps)).1 := rfl
    rw [hstep, h]
    rw [h] at hex
    exact runCandidates_pins_isSome (env n) (candsOf none eps) hex

/-- A provider whose every probe answers HTTP 200 with the status-free
well-formed body having an empty data object. -/
def envPinObj : Nat → String → PollFetch := fun _ _ =>
  PollFetch.resp true (some (JValue.jobj [("data", JValue.jobj [])]))

theorem c2_pinning_invariant_witness :
    pollState envPinObj (endpointsFor "T1") 3 =
      some "https://api.freepik.com/v1/ai/mystic/T1" ∧
    candsOf (pollState envPinObj (endpointsFor "T1") 3) (endpointsFor "T1") =
      ["https://api.freepik.com/v1/ai/mystic/T1"] :=
  (c2_pinning_invariant envPinObj (endpointsFor "T1")).1 1
    "https://api.freepik.com/v1/ai/mystic/T1" rfl 2

/-- C9: a candidate is pinned as the working endpoint as soon as its
2xx response parses to a JSON body whose data field is truthy, even
when that body carries no status field at all: the probe reaches
line 53 and sets working (candPins), produces no terminal decision
(candReturn = none), and a round starting with working unset ends with
the candidate pinned. -/
theorem c9_pin_without_status (data : JValue) (url : String)
    (h1 : data.truthy = true) (h2 : (data.get "data").truthy = true)
    (h3 : (data.get "data").get "status" = JValue.jundefined) :
    candPins (PollFetch.resp true (some data)) = true ∧
    candReturn (PollFetch.resp true (some data)) = none ∧
    (runCandidates (fun _ => PollFetch.resp true (some data)) none [url]).1 = some url := by
  have hp : candPins (PollFetch.resp true (some data)) = true := by
    simp [candPins, h1, h2]
  have hr : candReturn (PollFetch.resp true (some data)) = none := by
    have h4 : ((data.get "data").get "status").isStr "COMPLETED" = false := by
      rw [h3]; rfl
    have h5 : ((data.get "data").get "status").isStr "SUCCESS" = false := by
      rw [h3]; rfl
    simp [candReturn, h1, h2, h4, h5]
  refine ⟨hp, hr, ?_⟩
  simp [runCandidates, hp, hr]

theorem c9_pin_without_status_witness :
    candPins (PollFetch.resp true (some (JValue.jobj [("data", JValue.jobj [])]))) = true ∧
    candReturn (PollFetch.resp true (some (JValue.jobj [("data", JValue.jobj [])]))) = none ∧
    (runCandidates
      (fun _ => PollFetch.resp true (some (JValue.jobj [("data", JValue.jobj [])])))
      none ["https://api.freepik.com/v1/ai/mystic/T1"]).1 =
      some "https://api.freepik.com/v1/ai/mystic/T1" :=
  c9_pin_without_status (JValue.jobj [("data", JValue.jobj [])])
    "https://api.freepik.com/v1/ai/mystic/T1" rfl rfl rfl

theorem validPrompt_parts (reqBody : JValue) (h : validPrompt reqBody = true) :
    (promptOf reqBody).truthy = true ∧ logThrows (promptOf reqBody) = false := by
  unfold validPrompt at h
  rw [Bool.and_eq_true] at h
  refine ⟨h.1, ?_⟩
  simp [logThrows, h.2]

/-- C4: for every generation request whose prompt is missing or empty
(so `!prompt` holds on line 82), and with the API key present, the
handler answers 400 with the validation error `prompt required`, with
zero submission calls to the provider and without invoking the
poller. -/
theorem c4_missing_prompt (k : String) (reqBody : JValue) (submit : SubmitFetch)
    (pollFn : JValue → PollResult) (h : (promptOf reqBody).truthy = false) :
    generateHandler (some k) reqBody submit pollFn =
      ⟨400, errBody "prompt required", 0, false⟩ := by
  have hl : logThrows (promptOf reqBody) = false := by simp [logThrows, h]
  simp [generateHandler, hl, h]

theorem c4_missing_prompt_witness :
    generateHandler (some "key") (JValue.jobj [("aspect_ratio", JValue.jstr "16:9")])
      (SubmitFetch.resp 200 "" none) (fun _ => PollResult.timeout) =
      ⟨400, errBody "prompt required", 0, false⟩ :=
  c4_missing_prompt "key" (JValue.jobj [("aspect_ratio", JValue.jstr "16:9")])
    (SubmitFetch.resp 200 "" none) (fun _ => PollResult.timeout) rfl

/-- C5: for every submission response with HTTP status 429 — whatever
its text body and whether or not it parses as JSON — the handler
answers 429 with the quota remediation message and the machine flag
quota_exceeded = true (the generic provider error path would be a 502
with a different body), without invoking the poller. -/
theorem c5_http429_quota (k : String) (reqBody : JValue) (text : String)
    (jsonBody : Option JValue) (pollFn : JValue → PollResult)
    (hv : validPrompt reqBody = true) :
    generateHandler (some k) reqBody (SubmitFetch.resp 429 text jsonBody) pollFn =
      ⟨429, JValue.jobj [("error", JValue.jstr quotaMsg),
                         ("quota_exceeded", JValue.jbool true)], 1, false⟩ := by
  obtain ⟨ht, hl⟩ := validPrompt_parts reqBody hv
  simp [generateHandler, hl, ht]

theorem c5_http429_quota_witness :
    generateHandler (some "key") (JValue.jobj [("prompt", JValue.jstr "a castle at dusk")])
      (SubmitFetch.resp 429 "rate limited" none) (fun _ => PollResult.timeout) =
      ⟨429, JValue.jobj [("error", JValue.jstr quotaMsg),
                         ("quota_exceeded", JValue.jbool true)], 1, false⟩ :=
  c5_http429_quota "key" (JValue.jobj [("prompt", JValue.jstr "a castle at dusk")])
    "rate limited" none (fun _ => PollResult.timeout) rfl

/-- C7 counterexample: the claim states that for every 2xx submission
response containing a directly embedded result field the poller is
never invoked.  The concrete 2xx body
data = (task_id T, status CREATED, url https://x/a.png) does carry the
embedded result field data.url, yet the handler matches the task-handle
shape first (line 114) and invokes the poller. -/
theorem c7_counterexample :
    directVal (JValue.jobj [("data", JValue.jobj
        [("task_id", JValue.jstr "T"), ("status", JValue.jstr "CREATED"),
         ("url", JValue.jstr "https://x/a.png")])]) = JValue.jstr "https://x/a.png" ∧
    (generateHandler (some "key") (JValue.jobj [("prompt", JValue.jstr "p")])
      (SubmitFetch.resp 200 "" (some (JValue.jobj [("data", JValue.jobj
        [("task_id", JValue.jstr "T"), ("status", JValue.jstr "CREATED"),
         ("url", JValue.jstr "https://x/a.png")])])))
      (fun _ => PollResult.timeout)).pollInvoked = true :=
  ⟨rfl, rfl⟩

/-- C7 as amended: for every 2xx submission response that does not
match the task-handle shape of line 114 and whose embedded result
extraction (data.url, else data.image_url, else top-level url) yields
a string s, the client receives exactly 200 with url = s and the
poller is never invoked. -/
theorem c7_direct_result_roundtrip (k : String) (reqBody : JValue) (st : Nat)
    (text : String) (result : JValue) (pollFn : JValue → PollResult) (s : String)
    (hv : validPrompt reqBody = true) (h200 : 200 ≤ st) (h299 : st ≤ 299)
    (hth : isTaskHandle result = false) (hd : directVal result = JValue.jstr s) :
    generateHandler (some k) reqBody (SubmitFetch.resp st text (some result)) pollFn =
      ⟨200, JValue.jobj [("url", JValue.jstr s)], 1, false⟩ := by
  obtain ⟨ht, hl⟩ := validPrompt_parts reqBody hv
  have hld : logThrows (JValue.jstr s) = false := by
    simp [logThrows, JValue.isStringB]
  simp [generateHandler, hl, ht, h200, h299, hth, hd, hld]

theorem c7_direct_result_roundtrip_witness :
    generateHandler (some "key") (JValue.jobj [("prompt", JValue.jstr "p")])
      (SubmitFetch.resp 200 ""
        (some (JValue.jobj [("data", JValue.jobj [("image_url", JValue.jstr "https://x/b.png")])])))
      (fun _ => PollResult.timeout) =
      ⟨200, JValue.jobj [("url", JValue.jstr "https://x/b.png")], 1, false⟩ :=
  c7_direct_result_roundtrip "key" (JValue.jobj [("prompt", JValue.jstr "p")]) 200 ""
    (JValue.jobj [("data", JValue.jobj [("image_url", JValue.jstr "https://x/b.png")])])
    (fun _ => PollResult.timeout) "https://x/b.png" rfl (by decide) (by decide) rfl rfl

/-- C8: for every 2xx submission response that matches neither the
task-handle shape of line 114 nor any embedded result field (the
line 119 chain falls through to null), the client receives a 200
success response with url = null — treated as no result, not as an
error — and the poller is never invoked. -/
theorem c8_neither_shape_null (k : String) (reqBody : JValue) (st : Nat)
    (text : String) (result : JValue) (pollFn : JValue → PollResult)
    (hv : validPrompt reqBody = true) (h200 : 200 ≤ st) (h299 : st ≤ 299)
    (hth : isTaskHandle result = false) (hd : directVal result = JValue.jnull) :
    generateHandler (some k) reqBody (SubmitFetch.resp st text (some result)) pollFn =
      ⟨200, JValue.jobj [("url", JValue.jnull)], 1, false⟩ := by
  obtain ⟨ht, hl⟩ := validPrompt_parts reqBody hv
  have hln : logThrows JValue.jnull = false := rfl
  simp [generateHandler, hl, ht, h200, h299, hth, hd, hln]

theorem c8_neither_shape_null_witness :
    generateHandler (some "key") (JValue.jobj [("prompt", JValue.jstr "p")])
      (SubmitFetch.resp 200 "ok"
        (some (JValue.jobj [("data", JValue.jobj [("foo", JValue.jbool true)])])))
      (fun _ => PollResult.timeout) =
      ⟨200, JValue.jobj [("url", JValue.jnull)], 1, false⟩ :=
  c8_neither_shape_null "key" (JValue.jobj [("prompt", JValue.jstr "p")]) 200 "ok"
    (JValue.jobj [("data", JValue.jobj [("foo", JValue.jbool true)])])
    (fun _ => PollResult.timeout) rfl (by decide) (by decide) rfl rfl

/-- C10: the credential check on line 79 precedes the prompt check on
line 82 — for a request missing both the provider API key and the
prompt, the handler answers 400 with the configuration error
`Freepik API key missing on server`, not the prompt validation error,
and still issues no network call and never invokes the poller. -/
theorem c10_key_before_prompt (reqBody : JValue) (submit : SubmitFetch)
    (pollFn : JValue → PollResult) (_h : (promptOf reqBody).truthy = false) :
    generateHandler none reqBody submit pollFn =
      ⟨400, errBody "Freepik API key missing on server", 0, false⟩ := rfl

theorem c10_key_before_prompt_witness :
    generateHandler none (JValue.jobj []) (SubmitFetch.resp 200 "" none)
      (fun _ => PollResult.timeout) =
      ⟨400, errBody "Freepik API key missing on server", 0, false⟩ :=
  c10_key_before_prompt (JValue.jobj []) (SubmitFetch.resp 200 "" none)
    (fun _ => PollResult.timeout) rfl

/-- C6 counterexample: the claim states that on a COMPLETED status the
value selected by the preference order is returned and the session
terminates successfully.  On the concrete body whose generated list is
a single object with url = 123 the preference order selects 123, but
the line 59 diagnostic template literal calls .substring on that
truthy non-string value, the TypeError is swallowed by the line 66
catch, the candidate is skipped, and the session never terminates
successfully: it times out after all 60 rounds. -/
theorem c6_counterexample :
    specExtract (JValue.jobj [("status", JValue.jstr "COMPLETED"),
      ("generated", JValue.jarr [JValue.jobj [("url", JValue.jnum 123)]])]) =
      JValue.jnum 123 ∧
    extractAsset (JValue.jobj [("status", JValue.jstr "COMPLETED"),
      ("generated", JValue.jarr [JValue.jobj [("url", JValue.jnum 123)]])]) = none ∧
    pollFreepikTask (fun _ _ => PollFetch.resp true (some (JValue.jobj [("data",
      JValue.jobj [("status", JValue.jstr "COMPLETED"),
        ("generated", JValue.jarr [JValue.jobj [("url", JValue.jnum 123)]])])])))
      "T1" 60 = (PollResult.timeout, 60) :=
  ⟨rfl, rfl, rfl⟩

/-- C6 as amended: whenever the extraction of lines 56-62 returns a
value (it throws instead exactly when the first list element is
null/undefined or the selected value is truthy and not a string, in
which case the attempt is skipped and polling continues), the returned
value is the one given by the specification's preference order
(specExtract), provided the generated field is an honest array or
absent/falsy; a probe with a COMPLETED or SUCCESS status returns
exactly that extraction; and a round whose probes return a value makes
the session terminate successfully at that round with it. -/
theorem c6_extraction_amended :
    (∀ d v, genWellShaped d = true → extractAsset d = some v → v = specExtract d) ∧
    (∀ data, data.truthy = true → (data.get "data").truthy = true →
      ((((data.get "data").get "status").isStr "COMPLETED"
        || ((data.get "data").get "status").isStr "SUCCESS")) = true →
      candReturn (PollFetch.resp true (some data)) = extractAsset (data.get "data")) ∧
    (∀ env eps r n w v, (runCandidates (env n) w (candsOf w eps)).2 = some v →
      pollAux env eps (r + 1) n w = (PollResult.ok v, 1)) := by
  refine ⟨?_, ?_, ?_⟩
  · intro d v
    unfold genWellShaped extractAsset specExtract
    cases hg : d.get "generated" with
    | jnull =>
      intro _ h
      rw [if_neg (by decide)] at h
      rw [Option.some.injEq] at h
      rw [← h]; exact rfl
    | jundefined =>
      intro _ h
      rw [if_neg (by decide)] at h
      rw [Option.some.injEq] at h
      rw [← h]; exact rfl
    | jbool b =>
      intro hsh h
      simp [JValue.truthy] at hsh
      rw [hsh] at h
      rw [if_neg (by decide)] at h
      rw [Option.some.injEq] at h
      rw [← h]; exact rfl
    | jnum n =>
      intro hsh h
      simp [JValue.truthy] at hsh
      rw [hsh] at h
      rw [if_neg (by decide)] at h
      rw [Option.some.injEq] at h
      rw [← h]; exact rfl
    | jstr s =>
      intro hsh h
      simp [JValue.truthy] at hsh
      rw [hsh] at h
      rw [if_neg (by decide)] at h
      rw [Option.some.injEq] at h
      rw [← h]; exact rfl
    | jobj fields =>
      intro hsh
      simp [JValue.truthy] at hsh
    | jarr elems =>
      cases elems with
      | nil =>
        intro _ h
        rw [if_neg (by decide)] at h
        rw [Option.some.injEq] at h
        rw [← h]; exact rfl
      | cons e rest =>
        intro _ h
        have hcond : ((JValue.jarr (e :: rest)).truthy
            && ((JValue.jarr (e :: rest)).get "length").truthy) = true := by
          simp [JValue.truthy, JValue.get]
          omega
        rw [if_pos hcond] at h
        simp only [JValue.index0] at h
        unfold imageStep at h
        split at h
        · simp at h
        · split at h
          · simp at h
          · rw [Option.some.injEq] at h
            rw [← h]
            exact rfl
  · intro data h1 h2 h3
    simp [candReturn, h1, h2, h3]
  · intro env eps r n w v h
    rcases hp : runCandidates (env n) w (candsOf w eps) with ⟨w2, r2⟩
    rw [hp] at h
    simp at h
    rw [h] at hp
    simp [pollAux, hp]

theorem c6_extraction_amended_witness :
    JValue.jstr "https://x/a.png" = specExtract (JValue.jobj
      [("generated", JValue.jarr [JValue.jobj [("url", JValue.jstr "https://x/a.png")]])]) :=
  c6_extraction_amended.1 (JValue.jobj
      [("generated", JValue.jarr [JValue.jobj [("url", JValue.jstr "https://x/a.png")]])])
    (JValue.jstr "https://x/a.png") rfl rfl
